import Mathlib

/-!
# Verification of the LRNG entropy-accumulation and seeding engine

This development gives a shallow embedding of the core of `lrng_base.c`
(the Linux Random Number Generator patch by Stephan Mueller): the LFSR
entropy pool, the stuck test, the pool extraction operation, the primary
DRNG seeding state machine, the secondary/atomic DRNG reseed policy and
the crypto-backend switching protocol.  Machine integers (`u32`, `int`,
`unsigned long`) are modelled as `Nat`/`Int` with explicit reductions
modulo `2^32` / `2^64` at the points where the C code can wrap.
External kernel facilities (crypto callbacks, locking, work queues,
wait queues) are modelled by explicit parameters; locking is irrelevant
here because every verified property is about the sequential behaviour
of one operation.
-/

set_option autoImplicit false

namespace LRNG

/-! ## Compile-time constants of `lrng_base.c` -/

def LRNG_DRNG_SECURITY_STRENGTH_BYTES : Nat := 32

def LRNG_DRNG_SECURITY_STRENGTH_BITS : Nat := LRNG_DRNG_SECURITY_STRENGTH_BYTES * 8

def LRNG_POOL_SIZE : Nat := 128

def LRNG_POOL_WORD_BYTES : Nat := 4

def LRNG_POOL_SIZE_BYTES : Nat := LRNG_POOL_SIZE * LRNG_POOL_WORD_BYTES

def LRNG_POOL_SIZE_BITS : Nat := LRNG_POOL_SIZE_BYTES * 8

def LRNG_IRQ_ENTROPY_BITS : Nat := LRNG_DRNG_SECURITY_STRENGTH_BYTES * 8

def LRNG_IRQ_OVERSAMPLING_FACTOR : Nat := 10

def LRNG_EMERG_ENTROPY : Nat := LRNG_DRNG_SECURITY_STRENGTH_BITS * 2

def LRNG_MIN_SEED_ENTROPY_BITS : Nat := 128

def LRNG_INIT_ENTROPY_BITS : Nat := 32

def LRNG_FIPS_CRNGT : Int := 3

def LRNG_DRNG_RESEED_THRESH : Int := 2^20

def LRNG_DRNG_MAX_REQSIZE : Nat := 2^12

/-! ## Machine-integer helpers -/

/-- Truncation to an unsigned 32-bit value. -/
def u32 (x : Nat) : Nat := x % 2^32

/-- `u32` subtraction `a - b` (two's complement wraparound), for `a b < 2^32`. -/
def u32sub (a b : Nat) : Nat := (a + 2^32 - b % 2^32) % 2^32

/-- Wrap an `Int` into the signed 32-bit range, as C `int` overflow on
`atomic_t` operations does on all targets Linux supports. -/
def int32wrap (x : Int) : Int := (x + 2^31) % 2^32 - 2^31

/-- Truncation to an unsigned 64-bit value (`unsigned long`). -/
def u64 (x : Nat) : Nat := x % 2^64

/-- The kernel macro `time_after(a, b)`: `(long)((b) - (a)) < 0` on
64-bit `unsigned long` values, i.e. the 64-bit difference `b - a` has its
top bit set. -/
def time_after (a b : Nat) : Bool := decide (2^63 ≤ (b + 2^64 - a % 2^64) % 2^64)

/-- The kernel helper `rol32` (UB-free variant used since Linux 4.3):
`(word << (shift & 31)) | (word >> ((-shift) & 31))`. -/
def rol32 (word shift : Nat) : Nat :=
  let s := shift % 32
  (u32 (word <<< s)) ||| (u32 word >>> ((32 - s) % 32))

/-! ## Entropy accounting conversions

`lrng_entropy_to_data` / `lrng_data_to_entropy` from `lrng_base.c`.
`irq_entropy_bits` (`lrng_pool.irq_info.irq_entropy_bits`) is a runtime
parameter: 256 with a high-resolution timer, 2560 without. -/

def lrng_entropy_to_data (irq_entropy_bits entropy_bits : Nat) : Nat :=
  u32 (entropy_bits * irq_entropy_bits) / LRNG_DRNG_SECURITY_STRENGTH_BITS

def lrng_data_to_entropy (irq_entropy_bits irqnum : Nat) : Nat :=
  u32 (irqnum * LRNG_DRNG_SECURITY_STRENGTH_BITS) / irq_entropy_bits

def lrng_avail_entropy (irq_entropy_bits num_events : Nat) : Nat :=
  min LRNG_POOL_SIZE_BITS (lrng_data_to_entropy irq_entropy_bits num_events)

/-! ## The LFSR entropy pool (`lrng_pool_lfsr_u32`) -/

def lrng_lfsr_polynomial : List Nat := [127, 28, 26, 1]

def lrng_twist_table : List Nat :=
  [0x00000000, 0x3b6e20c8, 0x76dc4190, 0x4db26158,
   0xedb88320, 0xd6d6a3e8, 0x9b64c2b0, 0xa00ae278]

/-- The pool state touched by `lrng_pool_lfsr_u32`: the 128-word pool,
and the free-running `pool_ptr` and `input_rotate` counters (each a full
`u32`; the code masks them by 127 resp. 31 on use). -/
structure PoolState where
  pool : List Nat
  pool_ptr : Nat
  input_rotate : Nat
  deriving Repr, DecidableEq

/-- `lrng_pool_lfsr_u32` from `lrng_base.c`: the sole write path into the
entropy pool.  `&(LRNG_POOL_SIZE - 1)` is `% 128` and `& 31` is `% 32`. -/
def lrng_pool_lfsr_u32 (value : Nat) (s : PoolState) : PoolState :=
  let pool_ptr := u32 (s.pool_ptr + 67)
  let ptr := pool_ptr % LRNG_POOL_SIZE
  let input_rotate_ctr := u32 (s.input_rotate + (if ptr = 0 then 14 else 7))
  let input_rotate := input_rotate_ctr % 32
  let word0 := rol32 value input_rotate
  let word1 := word0 ^^^ s.pool.getD ptr 0
  let word2 := word1 ^^^ s.pool.getD ((ptr + 127) % LRNG_POOL_SIZE) 0
  let word3 := word2 ^^^ s.pool.getD ((ptr + 28) % LRNG_POOL_SIZE) 0
  let word4 := word3 ^^^ s.pool.getD ((ptr + 26) % LRNG_POOL_SIZE) 0
  let word5 := word4 ^^^ s.pool.getD ((ptr + 1) % LRNG_POOL_SIZE) 0
  let word := (word5 >>> 3) ^^^ lrng_twist_table.getD (word5 % 8) 0
  { pool := s.pool.set ptr word
    pool_ptr := pool_ptr
    input_rotate := input_rotate_ctr }

/-- Rendering of the spec sentence for `mix_word` exactly as written
(§4.1: "XORs it together with four pool words selected by fixed LFSR tap
offsets from the pointer"): the rotated input is XORed with the four tap
words only — the word currently stored at the pointer slot is not part of
the feedback.  Used solely to compare the spec's description against the
code. -/
def lrng_pool_lfsr_u32_specText (value : Nat) (s : PoolState) : PoolState :=
  let pool_ptr := u32 (s.pool_ptr + 67)
  let ptr := pool_ptr % LRNG_POOL_SIZE
  let input_rotate_ctr := u32 (s.input_rotate + (if ptr = 0 then 14 else 7))
  let input_rotate := input_rotate_ctr % 32
  let rotated := rol32 value input_rotate
  let feedback := lrng_lfsr_polynomial.foldl
    (fun w tap => w ^^^ s.pool.getD ((ptr + tap) % LRNG_POOL_SIZE) 0) rotated
  let word := (feedback >>> 3) ^^^ lrng_twist_table.getD (feedback % 8) 0
  { pool := s.pool.set ptr word
    pool_ptr := pool_ptr
    input_rotate := input_rotate_ctr }

/-- The spec's description of `mix_word` amended by the single fact the
code forces: the word at the pointer slot itself is a fifth XOR input of
the feedback, alongside the four LFSR tap words. -/
def lrng_pool_lfsr_u32_specAmended (value : Nat) (s : PoolState) : PoolState :=
  let pool_ptr := u32 (s.pool_ptr + 67)
  let ptr := pool_ptr % LRNG_POOL_SIZE
  let input_rotate_ctr := u32 (s.input_rotate + (if ptr = 0 then 14 else 7))
  let input_rotate := input_rotate_ctr % 32
  let rotated := rol32 value input_rotate
  let feedback := (ptr :: lrng_lfsr_polynomial.map (fun tap => (ptr + tap) % LRNG_POOL_SIZE)).foldl
    (fun w idx => w ^^^ s.pool.getD idx 0) rotated
  let word := (feedback >>> 3) ^^^ lrng_twist_table.getD (feedback % 8) 0
  { pool := s.pool.set ptr word
    pool_ptr := pool_ptr
    input_rotate := input_rotate_ctr }

/-! ## IRQ noise source status and the stuck test (`lrng_irq_stuck`) -/

/-- `struct lrng_irq_info`.  The `atomic_t` counters are carried as their
unsigned 32-bit bit patterns except `crngt_ctr`, which the code treats as
a signed counter via `atomic_dec_and_test`.  `reseed_in_progress` is not
modelled: it only gates the asynchronous work-queue scheduling. -/
structure IrqInfo where
  num_events : Nat
  num_events_thresh : Nat
  last_time : Nat
  last_delta : Nat
  last_delta2 : Nat
  crngt_ctr : Int
  irq_highres_timer : Bool
  stuck_test : Bool
  irq_entropy_bits : Nat
  deriving Repr, DecidableEq

structure StuckResult where
  stuck : Bool
  fips_failure : Bool
  info : IrqInfo
  deriving Repr, DecidableEq

/-- `lrng_irq_stuck` from `lrng_base.c` (with `CONFIG_CRYPTO_FIPS`
compiled in; `fips` is the runtime `fips_enabled` flag).  The three
time-derivative registers are exchanged unconditionally; the test result
is reported only when `stuck_test` is set.  `fips_failure` records that
`panic("FIPS 140-2 continuous random number generator test failed")` was
reached, which terminates the kernel.  `delta2`/`delta3` are C `int`
values; their u32 bit patterns are stored, and the zero tests agree. -/
def lrng_irq_stuck (fips : Bool) (info : IrqInfo) (now_time : Nat) : StuckResult :=
  let delta := u32sub now_time info.last_time
  let delta2 := u32sub delta info.last_delta
  let delta3 := u32sub delta2 info.last_delta2
  let info1 := { info with last_time := u32 now_time, last_delta := delta,
                           last_delta2 := delta2 }
  if !info1.stuck_test then
    { stuck := false, fips_failure := false, info := info1 }
  else
    let deccedCtr := int32wrap (info1.crngt_ctr - 1)
    let fips_failure := fips && delta == 0 && deccedCtr == 0
    let info2 :=
      if fips then
        if delta = 0 then { info1 with crngt_ctr := deccedCtr }
        else { info1 with crngt_ctr := LRNG_FIPS_CRNGT }
      else info1
    { stuck := delta == 0 || delta2 == 0 || delta3 == 0
      fips_failure := fips_failure
      info := info2 }

/-! ## Interrupt event processing (`add_interrupt_randomness`) -/

structure IrqEventResult where
  pool : PoolState
  info : IrqInfo
  counted : Bool
  fips_failure : Bool
  deriving Repr, DecidableEq

/-- `add_interrupt_randomness` from `lrng_base.c`, in normal operation
(the `lrng_raw_entropy_store` testing hook, declared in `linux/lrng.h`
outside this repository, stores nothing and returns false).  The
timestamp is always mixed into the pool first; when no high-resolution
timer is available the code additionally mixes environment words
(jiffies, irq number, irq flags, a saved register, the instruction
pointer), supplied here as `lowres_words`.  Only a non-stuck event
increments `num_events` (and may schedule the reseed work, which touches
no state modelled here). -/
def add_interrupt_randomness (fips : Bool) (lowres_words : List Nat)
    (pool : PoolState) (info : IrqInfo) (now_time : Nat) : IrqEventResult :=
  let pool1 := lrng_pool_lfsr_u32 now_time pool
  let pool2 := if info.irq_highres_timer then pool1
               else lowres_words.foldl (fun p w => lrng_pool_lfsr_u32 w p) pool1
  let r := lrng_irq_stuck fips info now_time
  if r.stuck then
    { pool := pool2, info := r.info, counted := false,
      fips_failure := r.fips_failure }
  else
    { pool := pool2
      info := { r.info with num_events := u32 (r.info.num_events + 1) }
      counted := true
      fips_failure := r.fips_failure }

/-! ## Hash-based pool extraction (`lrng_hash_pool`, `lrng_get_pool`) -/

def min3 (a b c : Nat) : Nat := min a (min b c)

/-- The copy loop of `lrng_hash_pool`:
`for (i = 0; i < 32 && avail_entropy_bytes > 0; i += digestsize)`.
`hashOk i` tells whether the `lrng_hash_buffer` call of the iteration at
offset `i` succeeds (a failure jumps to `out`).  The loop is driven by
fuel; with `0 < digestsize` the source loop runs at most
`⌈32/digestsize⌉ ≤ 32` iterations, so fuel
`LRNG_DRNG_SECURITY_STRENGTH_BYTES` is never exhausted first.  The
mix-back of each digest into the pool (`lrng_pool_lfsr`) only changes
the pool words and is not tracked by this byte-count model. -/
def lrng_hash_pool_loop (digestsize : Nat) (hashOk : Nat → Bool) :
    Nat → Nat → Nat → Nat → Nat
  | 0, _, _, generated_bytes => generated_bytes
  | fuel + 1, i, avail_bytes, generated_bytes =>
    if i < LRNG_DRNG_SECURITY_STRENGTH_BYTES ∧ 0 < avail_bytes then
      if hashOk i then
        lrng_hash_pool_loop digestsize hashOk fuel (i + digestsize)
          (avail_bytes -
            min3 avail_bytes digestsize (LRNG_DRNG_SECURITY_STRENGTH_BYTES - i))
          (generated_bytes +
            min3 avail_bytes digestsize (LRNG_DRNG_SECURITY_STRENGTH_BYTES - i))
      else generated_bytes
    else generated_bytes

/-- `lrng_hash_pool` from `lrng_base.c`: caps the requested byte count at
the DRNG security strength (the `pr_err` branch), repeatedly hashes the
pool, and returns `generated_bytes << 3`. -/
def lrng_hash_pool (digestsize : Nat) (hashOk : Nat → Bool)
    (avail_entropy_bits : Nat) : Nat :=
  let avail_entropy_bytes := avail_entropy_bits >>> 3
  let avail_entropy_bytes :=
    min avail_entropy_bytes LRNG_DRNG_SECURITY_STRENGTH_BYTES
  (lrng_hash_pool_loop digestsize hashOk LRNG_DRNG_SECURITY_STRENGTH_BYTES
    0 avail_entropy_bytes 0) <<< 3

structure GetPoolResult where
  /-- the return value of `lrng_get_pool` (estimated entropy in bits) -/
  entropy_bits : Nat
  /-- `num_events` after the trailing `atomic_add` -/
  num_events : Nat
  /-- `irq_num_events_used` -/
  events_used : Nat
  /-- `irq_num_events` after adding the events collected mid-call -/
  events_total : Nat
  deriving Repr, DecidableEq

/-- `lrng_get_pool` from `lrng_base.c`, sequentially.  `num_events0` is
the counter value taken by the first `atomic_xchg`; `mid_call_events`
are the interrupts that arrive between the two `atomic_xchg` calls (zero
in a single-threaded run).  `kernel round_down(x, 8)` is `x - x % 8`. -/
def lrng_get_pool (irq_entropy_bits digestsize : Nat) (hashOk : Nat → Bool)
    (num_events0 mid_call_events requested_entropy_bits : Nat)
    (drain : Bool) : GetPoolResult :=
  let irq_num_events := num_events0
  let avail0 := lrng_data_to_entropy irq_entropy_bits irq_num_events
  let avail1 := min avail0 LRNG_POOL_SIZE_BITS
  let avail_entropy_bits :=
    if drain then
      let bits := min avail1 requested_entropy_bits
      lrng_hash_pool digestsize hashOk (bits - bits % 8)
    else if avail1 < u32 (requested_entropy_bits + LRNG_EMERG_ENTROPY) then
      0
    else
      lrng_hash_pool digestsize hashOk
        (requested_entropy_bits - requested_entropy_bits % 8)
  let events_total := u32 (irq_num_events + mid_call_events)
  let events_used := lrng_entropy_to_data irq_entropy_bits avail_entropy_bits
  let event_back :=
    min (u32sub events_total events_used)
        (u32sub (lrng_entropy_to_data irq_entropy_bits LRNG_POOL_SIZE_BITS)
                events_used)
  { entropy_bits := avail_entropy_bits
    num_events := event_back
    events_used := events_used
    events_total := events_total }

/-! ## Primary DRNG seeding state machine (`lrng_pdrng_init_ops`) -/

/-- The seeding-relevant fields of `struct lrng_pdrng`. -/
structure PdrngState where
  pdrng_fully_seeded : Bool
  pdrng_min_seeded : Bool
  pdrng_entropy_bits : Nat
  deriving Repr, DecidableEq

structure InitOpsResult where
  st : PdrngState
  /-- `lrng_pool.irq_info.num_events_thresh` after the call -/
  num_events_thresh : Nat
  /-- this call ran the fully-seeded transition branch, which invokes
  `lrng_process_ready_list` and `wake_up_all` -/
  fired_full : Bool
  /-- this call ran the minimally-seeded transition branch, which invokes
  `lrng_process_ready_list` and `wake_up_all` -/
  fired_min : Bool
  deriving Repr, DecidableEq

/-- `lrng_pdrng_init_ops` from `lrng_base.c`, together with the
`lrng_set_entropy_thresh` calls it makes (`thresh` is the current
`num_events_thresh`).  `invalidate_batched_entropy` touches only the
per-CPU fast-path caches, outside this state. -/
def lrng_pdrng_init_ops (irq_entropy_bits : Nat) (st : PdrngState)
    (thresh : Nat) (entropy_bits : Nat) : InitOpsResult :=
  if st.pdrng_fully_seeded then
    { st := st, num_events_thresh := thresh, fired_full := false,
      fired_min := false }
  else if LRNG_DRNG_SECURITY_STRENGTH_BITS ≤ entropy_bits then
    { st := { st with pdrng_fully_seeded := true, pdrng_min_seeded := true }
      num_events_thresh :=
        lrng_entropy_to_data irq_entropy_bits LRNG_DRNG_SECURITY_STRENGTH_BITS
      fired_full := true
      fired_min := false }
  else if !st.pdrng_min_seeded then
    if LRNG_MIN_SEED_ENTROPY_BITS ≤ entropy_bits then
      { st := { st with pdrng_min_seeded := true }
        num_events_thresh :=
          lrng_entropy_to_data irq_entropy_bits
            LRNG_DRNG_SECURITY_STRENGTH_BITS
        fired_full := false
        fired_min := true }
    else if LRNG_INIT_ENTROPY_BITS ≤ entropy_bits then
      { st := st
        num_events_thresh :=
          lrng_entropy_to_data irq_entropy_bits LRNG_MIN_SEED_ENTROPY_BITS
        fired_full := false
        fired_min := false }
    else
      { st := st, num_events_thresh := thresh, fired_full := false,
        fired_min := false }
  else
    { st := st, num_events_thresh := thresh, fired_full := false,
      fired_min := false }

/-- `lrng_pdrng_reset` from `lrng_base.c`. -/
def lrng_pdrng_reset : PdrngState :=
  { pdrng_fully_seeded := false, pdrng_min_seeded := false,
    pdrng_entropy_bits := 0 }

/-- The primary-DRNG part of `lrng_drngs_switch` (`lrng_base.c`
lines 1692-1725): pull a seed from the old generator (`genOk`), seed the
new one (`seedOk`); either failure calls `lrng_pdrng_reset`, as does a
switch happening before `lrng_pdrng_avail` was set (boot). -/
def lrng_drngs_switch_pdrng (genOk seedOk pdrng_avail : Bool)
    (st : PdrngState) : PdrngState :=
  let st1 := if !genOk then lrng_pdrng_reset
             else if !seedOk then lrng_pdrng_reset
             else st
  if !pdrng_avail then lrng_pdrng_reset else st1

/-- Ordering of the seeding states as readable from the two flags
(`Initial` leaves no flag): `Unseeded`/`Initial` ↦ 0,
`MinimallySeeded` ↦ 2, `FullySeeded` ↦ 3. -/
def pdrng_rank (st : PdrngState) : Nat :=
  if st.pdrng_fully_seeded then 3 else if st.pdrng_min_seeded then 2 else 0

/-- The entropy-accounting part of `lrng_pdrng_inject`: cap the entropy
claim at the buffer size, raise the budget (capped at the security
strength) and run `lrng_pdrng_init_ops` — skipped entirely when the
backend seed callback fails (`seedOk = false`). -/
def lrng_pdrng_inject_entropy (irq_entropy_bits : Nat) (st : PdrngState)
    (thresh : Nat) (inbuflen entropy_bits : Nat) (seedOk : Bool) :
    InitOpsResult :=
  if !seedOk then
    { st := st, num_events_thresh := thresh, fired_full := false,
      fired_min := false }
  else
    let e := min entropy_bits (u32 (inbuflen <<< 3))
    let newBits := min (st.pdrng_entropy_bits + e) LRNG_DRNG_SECURITY_STRENGTH_BITS
    let st1 := { st with pdrng_entropy_bits := newBits }
    lrng_pdrng_init_ops irq_entropy_bits st1 thresh st1.pdrng_entropy_bits

structure InjectTraceOut where
  st : PdrngState
  num_events_thresh : Nat
  /-- how often the minimally-seeded ready-callback branch fired -/
  min_fires : Nat
  /-- how often the fully-seeded ready-callback branch fired -/
  full_fires : Nat
  deriving Repr, DecidableEq

/-- Fold a sequence of injections (`inbuflen`, `entropy_bits`, `seedOk`)
through `lrng_pdrng_inject_entropy`, counting how often the
minimally-seeded and the fully-seeded ready-callback branches fire. -/
def lrng_inject_trace (irq_entropy_bits : Nat) :
    List (Nat × Nat × Bool) → PdrngState → Nat → InjectTraceOut
  | [], st, thresh =>
    { st := st, num_events_thresh := thresh, min_fires := 0, full_fires := 0 }
  | (len, bits, ok) :: rest, st, thresh =>
    let r := lrng_pdrng_inject_entropy irq_entropy_bits st thresh len bits ok
    let out := lrng_inject_trace irq_entropy_bits rest r.st r.num_events_thresh
    { st := out.st
      num_events_thresh := out.num_events_thresh
      min_fires := (if r.fired_min then 1 else 0) + out.min_fires
      full_fires := (if r.fired_full then 1 else 0) + out.full_fires }

/-! ## Secondary / atomic DRNG (`lrng_sdrng_get`, `lrng_sdrng_seed`) -/

/-- The per-instance fields of `struct lrng_sdrng` (the generator handle
and locks are opaque). -/
structure SdrngState where
  requests : Int
  last_seeded : Nat
  fully_seeded : Bool
  force_reseed : Bool
  deriving Repr, DecidableEq

/-- The per-chunk reseed trigger of the `lrng_sdrng_get` loop:
`atomic_dec_and_test(&sdrng->requests) || sdrng->force_reseed ||
time_after(jiffies, sdrng->last_seeded + lrng_sdrng_reseed_max_time * HZ)`.
Returns the trigger value and the decremented request counter. -/
def lrng_sdrng_reseed_trigger (reseed_max_time hz jiffies : Nat)
    (st : SdrngState) : Bool × Int :=
  let requests := int32wrap (st.requests - 1)
  (requests == 0 || st.force_reseed ||
     time_after jiffies (u64 (st.last_seeded + reseed_max_time * hz)),
   requests)

/-- The trigger condition exactly as the spec words it (§8:
"Secondary shard reseed triggers exactly when `requests == 0 OR
force_reseed OR elapsed >= max_interval`"), with elapsed time measured
in jiffies against the interval `reseed_max_time * HZ`.  Used solely to
compare the spec's description against the code. -/
def lrng_sdrng_reseed_trigger_specText (reseed_max_time hz jiffies : Nat)
    (st : SdrngState) : Bool :=
  int32wrap (st.requests - 1) == 0 || st.force_reseed ||
    decide (reseed_max_time * hz ≤ jiffies - st.last_seeded)

structure SdrngGetOut where
  /-- number of times the loop invoked `lrng_sdrng_seed` (the
  primary-DRNG reseed path) -/
  seed_calls : Nat
  st : SdrngState
  /-- `some processed` on success, `none` for the `-EFAULT` exit -/
  result : Option Nat
  deriving Repr, DecidableEq

/-- The generation loop of `lrng_sdrng_get` from `lrng_base.c`.
`atomicInst` says the selected instance is `lrng_sdrng_atomic`;
`seedEffect` abstracts the state change done by `lrng_sdrng_seed`
(whose work goes through external crypto callbacks); `genBytes`
abstracts the per-iteration result of `lrng_drng_generate_helper`.
Fuel-driven: in C the loop advances because a successful generate
returns at least one byte. -/
def lrng_sdrng_get_loop (atomicInst : Bool) (reseed_max_time hz jiffies : Nat)
    (seedEffect : SdrngState → SdrngState) (genBytes : Nat → Int) :
    Nat → Nat → SdrngState → SdrngGetOut
  | 0, _, st => { seed_calls := 0, st := st, result := none }
  | fuel + 1, outbuflen, st =>
    if outbuflen = 0 then { seed_calls := 0, st := st, result := some 0 }
    else
      let trigger := lrng_sdrng_reseed_trigger reseed_max_time hz jiffies st
      let st1 := { st with requests := trigger.2 }
      let (st2, called) :=
        if trigger.1 then
          if !atomicInst then (seedEffect st1, true) else (st1, false)
        else (st1, false)
      let ret := genBytes fuel
      if ret ≤ 0 then
        { seed_calls := if called then 1 else 0, st := st2, result := none }
      else
        let out := lrng_sdrng_get_loop atomicInst reseed_max_time hz jiffies
          seedEffect genBytes fuel (u32sub outbuflen ret.toNat) st2
        { seed_calls := (if called then 1 else 0) + out.seed_calls
          st := out.st
          result := out.result.map (· + ret.toNat) }

structure SdrngSeedOut where
  st : SdrngState
  atomic : SdrngState
  /-- the tail of `lrng_sdrng_seed` injected fresh data into
  `lrng_sdrng_atomic` -/
  atomic_injected : Bool
  deriving Repr, DecidableEq

/-- `lrng_sdrng_inject` from `lrng_base.c`, entropy-accounting part
(`internal = true` callers): a failed backend seed forces `requests` to
1; a successful one stamps `last_seeded` and refills `requests`. -/
def lrng_sdrng_inject (seedOk : Bool) (jiffies : Nat) (st : SdrngState) :
    SdrngState :=
  if !seedOk then { st with requests := 1 }
  else { st with last_seeded := jiffies,
                 requests := LRNG_DRNG_RESEED_THRESH }

/-- `lrng_sdrng_seed` from `lrng_base.c`.  `seedFuncRet` is the result
of the `seed_func` pull from the primary DRNG (bytes obtained, or a
negative errno; `-EINPROGRESS = -115`); `sdrngSeedOk` / `atomicSeedOk`
are the outcomes of the two backend seed callbacks; `sdrngGetRet` the
result of the `lrng_sdrng_get` call used to feed the atomic instance;
`sharesAtomicHandle` is `sdrng->sdrng == lrng_sdrng_atomic.sdrng`. -/
def lrng_sdrng_seed (seedFuncRet : Int) (sdrngSeedOk : Bool)
    (sdrngGetRet : Int) (atomicSeedOk : Bool) (sharesAtomicHandle : Bool)
    (reseed_max_time hz jiffies : Nat) (st atomicSt : SdrngState) :
    SdrngSeedOut :=
  if seedFuncRet < 0 then
    if seedFuncRet ≠ -115 then
      { st := { st with requests := 1 }, atomic := atomicSt,
        atomic_injected := false }
    else
      { st := st, atomic := atomicSt, atomic_injected := false }
  else
    let st1 := lrng_sdrng_inject sdrngSeedOk jiffies st
    let st2 := { st1 with force_reseed := false }
    let st3 := if (LRNG_DRNG_SECURITY_STRENGTH_BYTES : Int) ≤ seedFuncRet
               then { st2 with fully_seeded := true } else st2
    if !sharesAtomicHandle &&
       (atomicSt.force_reseed || atomicSt.requests ≤ 0 ||
        time_after jiffies (u64 (atomicSt.last_seeded +
                                 reseed_max_time * hz))) then
      if sdrngGetRet < 0 then
        { st := st3, atomic := atomicSt, atomic_injected := false }
      else
        let a1 := lrng_sdrng_inject atomicSeedOk jiffies atomicSt
        { st := st3, atomic := { a1 with force_reseed := false },
          atomic_injected := true }
    else
      { st := st3, atomic := atomicSt, atomic_injected := false }

/-! ## Backend switching (`lrng_set_drng_cb`) -/

/-- The DRNG state `lrng_set_drng_cb` ranges over: the active crypto
callback of the primary DRNG (backend `0` is the default
`lrng_cc20_crypto_cb`), its seeding state, the pool reseed threshold and
the per-shard secondary backends. -/
structure DrngsState where
  pdrng_crypto_cb : Nat
  pdrng : PdrngState
  num_events_thresh : Nat
  sdrng_crypto_cbs : List Nat
  deriving Repr, DecidableEq

/-- `lrng_set_drng_cb` from `lrng_base.c`.  A null callback argument is
replaced by the default `lrng_cc20_crypto_cb`.  If both the requested
and the active backend differ from the default, the switch is refused
with `-EINVAL` before `lrng_drngs_switch` runs; `drngs_switch` abstracts
that call (its work goes through external crypto callbacks). -/
def lrng_set_drng_cb (drngs_switch : Nat → DrngsState → Int × DrngsState)
    (cb : Option Nat) (st : DrngsState) : Int × DrngsState :=
  let cb' := cb.getD 0
  if cb' ≠ 0 ∧ st.pdrng_crypto_cb ≠ 0 then (-22, st)
  else drngs_switch cb' st

/-! ## Helper lemmas -/

theorem u32_eq_of_lt {a : Nat} (h : a < 2^32) : u32 a = a := Nat.mod_eq_of_lt h

theorem u32sub_eq_sub {a b : Nat} (hb : b ≤ a) (ha : a < 2^32) :
    u32sub a b = a - b := by
  unfold u32sub
  rw [Nat.mod_eq_of_lt (lt_of_le_of_lt hb ha)]
  have h1 : a + 2^32 - b = (a - b) + 2^32 := by omega
  rw [h1, Nat.add_mod_right, Nat.mod_eq_of_lt (by omega)]

theorem lrng_hash_pool_loop_le (ds : Nat) (hOk : Nat → Bool) :
    ∀ fuel i avail gen,
      lrng_hash_pool_loop ds hOk fuel i avail gen ≤ gen + avail := by
  intro fuel
  induction fuel with
  | zero => intro i avail gen; simp [lrng_hash_pool_loop]
  | succ n ih =>
    intro i avail gen
    unfold lrng_hash_pool_loop
    split
    · split
      · have h1 : min3 avail ds (LRNG_DRNG_SECURITY_STRENGTH_BYTES - i) ≤ avail :=
          Nat.min_le_left _ _
        have h2 := ih (i + ds)
          (avail - min3 avail ds (LRNG_DRNG_SECURITY_STRENGTH_BYTES - i))
          (gen + min3 avail ds (LRNG_DRNG_SECURITY_STRENGTH_BYTES - i))
        omega
      · exact Nat.le_add_right _ _
    · exact Nat.le_add_right _ _

theorem lrng_hash_pool_le (ds : Nat) (hOk : Nat → Bool) (bits : Nat) :
    lrng_hash_pool ds hOk bits ≤ bits := by
  unfold lrng_hash_pool
  have h1 := lrng_hash_pool_loop_le ds hOk LRNG_DRNG_SECURITY_STRENGTH_BYTES 0
    (min (bits >>> 3) LRNG_DRNG_SECURITY_STRENGTH_BYTES) 0
  have h2 : bits >>> 3 = bits / 8 := by
    simp [Nat.shiftRight_eq_div_pow]
  have h3 : min (bits >>> 3) LRNG_DRNG_SECURITY_STRENGTH_BYTES ≤ bits / 8 := by
    rw [← h2]; exact Nat.min_le_left _ _
  have h4 : bits / 8 * 8 ≤ bits := Nat.div_mul_le_self bits 8
  simp only [Nat.shiftLeft_eq]
  have h5 : lrng_hash_pool_loop ds hOk LRNG_DRNG_SECURITY_STRENGTH_BYTES 0
      (min (bits >>> 3) LRNG_DRNG_SECURITY_STRENGTH_BYTES) 0 ≤ bits / 8 := by omega
  calc lrng_hash_pool_loop ds hOk LRNG_DRNG_SECURITY_STRENGTH_BYTES 0
        (min (bits >>> 3) LRNG_DRNG_SECURITY_STRENGTH_BYTES) 0 * 2^3
      ≤ bits / 8 * 2^3 := Nat.mul_le_mul_right _ h5
    _ = bits / 8 * 8 := by norm_num
    _ ≤ bits := h4

theorem lrng_hash_pool_le_strength (ds : Nat) (hOk : Nat → Bool) (bits : Nat) :
    lrng_hash_pool ds hOk bits ≤ LRNG_DRNG_SECURITY_STRENGTH_BITS := by
  unfold lrng_hash_pool
  have h1 := lrng_hash_pool_loop_le ds hOk LRNG_DRNG_SECURITY_STRENGTH_BYTES 0
    (min (bits >>> 3) LRNG_DRNG_SECURITY_STRENGTH_BYTES) 0
  have h2 : min (bits >>> 3) LRNG_DRNG_SECURITY_STRENGTH_BYTES ≤
      LRNG_DRNG_SECURITY_STRENGTH_BYTES := Nat.min_le_right _ _
  simp only [Nat.shiftLeft_eq]
  have h3 : lrng_hash_pool_loop ds hOk LRNG_DRNG_SECURITY_STRENGTH_BYTES 0
      (min (bits >>> 3) LRNG_DRNG_SECURITY_STRENGTH_BYTES) 0 ≤
      LRNG_DRNG_SECURITY_STRENGTH_BYTES := by omega
  calc lrng_hash_pool_loop ds hOk LRNG_DRNG_SECURITY_STRENGTH_BYTES 0
        (min (bits >>> 3) LRNG_DRNG_SECURITY_STRENGTH_BYTES) 0 * 2^3
      ≤ LRNG_DRNG_SECURITY_STRENGTH_BYTES * 2^3 := Nat.mul_le_mul_right _ h3
    _ = LRNG_DRNG_SECURITY_STRENGTH_BITS := by decide

theorem lrng_hash_pool_mod8 (ds : Nat) (hOk : Nat → Bool) (bits : Nat) :
    lrng_hash_pool ds hOk bits % 8 = 0 := by
  unfold lrng_hash_pool
  simp only [Nat.shiftLeft_eq]
  omega

/-! ## Claim C9 — `lrng_pool_lfsr_u32` mixing step -/

/-- C9, counterexample: the claim describes the feedback as the rotated
input XORed with "the four pool words at the fixed LFSR tap offsets from
the pointer", omitting the word currently stored at the pointer slot
itself, which `lrng_pool_lfsr_u32` also XORs in (`word ^=
atomic_read_u32(&lrng_pool.pool[ptr])`).  With the pool word at the
insertion slot (index 67 after the first stride) set to 1, the claimed
computation and the code disagree. -/
theorem claim_C9_counterexample :
    lrng_pool_lfsr_u32 0 ⟨(List.replicate 128 0).set 67 1, 0, 0⟩ ≠
      lrng_pool_lfsr_u32_specText 0 ⟨(List.replicate 128 0).set 67 1, 0, 0⟩ := by
  decide

/-- C9 (amended): each `lrng_pool_lfsr_u32` call advances the insertion
pointer by the prime stride 67 mod 128, advances the rotation counter by
7 — or 14 when the pointer wraps to 0 — mod 32, rotates the input word
left by the rotation amount, XORs it with the pool word at the pointer
slot and with the four pool words at the fixed LFSR tap offsets from the
pointer, feeds the XOR result through the fixed 8-entry twist table
indexed by its low 3 bits with the value shifted right by 3, and stores
the result at the pointer slot. -/
theorem claim_C9_lfsr_step (value : Nat) (s : PoolState) :
    lrng_pool_lfsr_u32 value s = lrng_pool_lfsr_u32_specAmended value s := by
  rfl

/-! ## Claim C4 — stuck test and event rejection -/

/-- C4, counterexample: a stuck event (zero first derivative) is not
counted, but its timestamp IS mixed into the entropy pool —
`add_interrupt_randomness` calls `lrng_pool_lfsr_u32(now_time)` before
running the stuck test — contradicting the claim that a rejected event
is "neither mixed into the pool nor counted". -/
theorem claim_C4_counterexample :
    (add_interrupt_randomness false [] ⟨List.replicate 128 0, 0, 0⟩
      ⟨0, 32, 5, 0, 0, 3, true, true, 256⟩ 5).counted = false ∧
    (add_interrupt_randomness false [] ⟨List.replicate 128 0, 0, 0⟩
      ⟨0, 32, 5, 0, 0, 3, true, true, 256⟩ 5).pool ≠
      ⟨List.replicate 128 0, 0, 0⟩ := by
  constructor
  · decide
  · decide

/-- C4 (amended): for every timing event with timestamp `t` the stuck
test computes `d1 = t - last_t`, `d2 = d1 - last_d1`, `d3 = d2 -
last_d2`, updates the stored per-source state, and the event is not
counted toward the event counter exactly when `d1==0 ∨ d2==0 ∨ d3==0`
(the test being disabled when no high-resolution timestamp source exists
at init); the timestamp is mixed into the pool regardless of the test's
verdict. -/
theorem claim_C4_stuck_test (fips : Bool) (lowres_words : List Nat)
    (pool : PoolState) (info : IrqInfo) (t : Nat) :
    (add_interrupt_randomness fips lowres_words pool info t).info.last_time = u32 t ∧
    (add_interrupt_randomness fips lowres_words pool info t).info.last_delta =
      u32sub t info.last_time ∧
    (add_interrupt_randomness fips lowres_words pool info t).info.last_delta2 =
      u32sub (u32sub t info.last_time) info.last_delta ∧
    (add_interrupt_randomness fips lowres_words pool info t).counted =
      !(info.stuck_test &&
        (u32sub t info.last_time == 0 ||
         u32sub (u32sub t info.last_time) info.last_delta == 0 ||
         u32sub (u32sub (u32sub t info.last_time) info.last_delta)
           info.last_delta2 == 0)) ∧
    (add_interrupt_randomness fips lowres_words pool info t).info.num_events =
      (if info.stuck_test &&
          (u32sub t info.last_time == 0 ||
           u32sub (u32sub t info.last_time) info.last_delta == 0 ||
           u32sub (u32sub (u32sub t info.last_time) info.last_delta)
             info.last_delta2 == 0)
       then info.num_events else u32 (info.num_events + 1)) ∧
    (add_interrupt_randomness fips lowres_words pool info t).pool =
      (if info.irq_highres_timer then lrng_pool_lfsr_u32 t pool
       else lowres_words.foldl (fun p w => lrng_pool_lfsr_u32 w p)
         (lrng_pool_lfsr_u32 t pool)) := by
  unfold add_interrupt_randomness lrng_irq_stuck
  rcases hst : info.stuck_test with _ | _ <;>
    rcases hhr : info.irq_highres_timer with _ | _ <;>
      rcases hf : fips with _ | _ <;>
        simp [hst, hhr, hf] <;>
          rcases h1 : u32sub t info.last_time == 0 with _ | _ <;>
            rcases h2 : u32sub (u32sub t info.last_time) info.last_delta == 0
              with _ | _ <;>
              rcases h3 : u32sub (u32sub (u32sub t info.last_time)
                info.last_delta) info.last_delta2 == 0 with _ | _ <;>
                simp_all

/-! ## Claim C5 — FIPS continuous test fatality -/

/-- C5, counterexample: in certified (FIPS) mode, the events at times
10, 20, 30, 40 have identical deltas (10), so the last three are three
consecutive stuck-test rejections — yet the process does not terminate:
the FIPS counter is only decremented on a ZERO delta and is reset to 3
by every nonzero delta, so identical nonzero deltas are never fatal,
contradicting the claim. -/
theorem claim_C5_counterexample :
    ((add_interrupt_randomness true [] ⟨List.replicate 128 0, 0, 0⟩
        ⟨0, 32, 0, 0, 0, 3, true, true, 256⟩ 10).counted = true) ∧
    (let r1 := add_interrupt_randomness true [] ⟨List.replicate 128 0, 0, 0⟩
        ⟨0, 32, 0, 0, 0, 3, true, true, 256⟩ 10
     let r2 := add_interrupt_randomness true [] r1.pool r1.info 20
     let r3 := add_interrupt_randomness true [] r2.pool r2.info 30
     let r4 := add_interrupt_randomness true [] r3.pool r3.info 40
     r2.counted = false ∧ r3.counted = false ∧ r4.counted = false ∧
     r1.fips_failure = false ∧ r2.fips_failure = false ∧
     r3.fips_failure = false ∧ r4.fips_failure = false) := by
  decide

/-- C5 (amended): in certified (FIPS) mode the process terminates
exactly on an event whose first time-derivative `d1` is zero while the
FIPS counter — decremented by each zero-delta event, reset to
`LRNG_FIPS_CRNGT = 3` by any nonzero delta — stands at 1, i.e. on the
third consecutive event with a timestamp identical to its predecessor;
rejections with a nonzero delta (identical deltas included) are never
fatal, and outside certified mode, or with the stuck test disabled,
rejected events are silently dropped and merely not counted. -/
theorem claim_C5_fips_failure (fips : Bool) (info : IrqInfo) (t : Nat) :
    (lrng_irq_stuck fips info t).fips_failure =
      (info.stuck_test && fips && (u32sub t info.last_time == 0) &&
        (int32wrap (info.crngt_ctr - 1) == 0)) ∧
    (lrng_irq_stuck fips info t).info.crngt_ctr =
      (if info.stuck_test ∧ fips then
        (if u32sub t info.last_time = 0 then int32wrap (info.crngt_ctr - 1)
         else LRNG_FIPS_CRNGT)
       else info.crngt_ctr) := by
  unfold lrng_irq_stuck
  rcases hst : info.stuck_test with _ | _ <;>
    rcases hf : fips with _ | _ <;>
      rcases h1 : u32sub t info.last_time == 0 with _ | _ <;>
        simp_all

/-! ## Claim C2 — primary DRNG seeding thresholds -/

/-- C2: injecting entropy into an unseeded primary DRNG transitions the
seeding state machine at the specified thresholds: at least 32 bits
(Unseeded to Initial) raises the pool reseed threshold to the event
equivalent of 128 bits; at least 128 bits sets the minimally-seeded flag
and raises the threshold to the event equivalent of 256 bits; at least
256 bits sets the fully-seeded flag; every upward transition raises the
reseed threshold (`lrng_set_entropy_thresh`) to the next target. -/
theorem claim_C2_seeding_thresholds (irq_entropy_bits : Nat) (st : PdrngState)
    (thresh entropy_bits : Nat)
    (hfull : st.pdrng_fully_seeded = false)
    (hmin : st.pdrng_min_seeded = false) :
    (LRNG_INIT_ENTROPY_BITS ≤ entropy_bits →
      entropy_bits < LRNG_MIN_SEED_ENTROPY_BITS →
      lrng_pdrng_init_ops irq_entropy_bits st thresh entropy_bits =
        { st := st
          num_events_thresh :=
            lrng_entropy_to_data irq_entropy_bits LRNG_MIN_SEED_ENTROPY_BITS
          fired_full := false
          fired_min := false }) ∧
    (LRNG_MIN_SEED_ENTROPY_BITS ≤ entropy_bits →
      entropy_bits < LRNG_DRNG_SECURITY_STRENGTH_BITS →
      lrng_pdrng_init_ops irq_entropy_bits st thresh entropy_bits =
        { st := { st with pdrng_min_seeded := true }
          num_events_thresh :=
            lrng_entropy_to_data irq_entropy_bits
              LRNG_DRNG_SECURITY_STRENGTH_BITS
          fired_full := false
          fired_min := true }) ∧
    (LRNG_DRNG_SECURITY_STRENGTH_BITS ≤ entropy_bits →
      lrng_pdrng_init_ops irq_entropy_bits st thresh entropy_bits =
        { st := { st with pdrng_fully_seeded := true, pdrng_min_seeded := true }
          num_events_thresh :=
            lrng_entropy_to_data irq_entropy_bits
              LRNG_DRNG_SECURITY_STRENGTH_BITS
          fired_full := true
          fired_min := false }) := by
  unfold lrng_pdrng_init_ops
  simp only [LRNG_INIT_ENTROPY_BITS, LRNG_MIN_SEED_ENTROPY_BITS,
    LRNG_DRNG_SECURITY_STRENGTH_BITS, LRNG_DRNG_SECURITY_STRENGTH_BYTES,
    hfull, hmin]
  refine ⟨fun h1 h2 => ?_, fun h1 h2 => ?_, fun h1 => ?_⟩ <;>
    split_ifs <;> first | rfl | omega | simp_all

/-- C2, witness: concrete transitions at 40, 130 and 300 bits with the
high-resolution-timer entropy rate of 256 bits per 256 events. -/
theorem claim_C2_seeding_thresholds_witness :
    (lrng_pdrng_init_ops 256 ⟨false, false, 0⟩ 32 40 =
      { st := ⟨false, false, 0⟩, num_events_thresh := 128,
        fired_full := false, fired_min := false }) ∧
    (lrng_pdrng_init_ops 256 ⟨false, false, 0⟩ 32 130 =
      { st := ⟨false, true, 0⟩, num_events_thresh := 256,
        fired_full := false, fired_min := true }) ∧
    (lrng_pdrng_init_ops 256 ⟨false, false, 0⟩ 32 300 =
      { st := ⟨true, true, 0⟩, num_events_thresh := 256,
        fired_full := true, fired_min := false }) :=
  ⟨(claim_C2_seeding_thresholds 256 ⟨false, false, 0⟩ 32 40 rfl rfl).1
      (by decide) (by decide),
   (claim_C2_seeding_thresholds 256 ⟨false, false, 0⟩ 32 130 rfl rfl).2.1
      (by decide) (by decide),
   (claim_C2_seeding_thresholds 256 ⟨false, false, 0⟩ 32 300 rfl rfl).2.2
      (by decide)⟩

/-! ## Claim C6 — secondary DRNG reseed trigger -/

/-- C6, counterexample: the claim (and spec §8) require a reseed attempt
when the elapsed time since last seeding is AT LEAST the maximum reseed
interval; the code uses the strict `time_after(jiffies, last_seeded +
lrng_sdrng_reseed_max_time * HZ)`.  With `reseed_max_time = 600`,
`HZ = 100`, `last_seeded = 0` and `jiffies = 60000` the elapsed time
equals the interval: the claimed condition holds, yet the generation
loop does not invoke `lrng_sdrng_seed`. -/
theorem claim_C6_counterexample :
    lrng_sdrng_reseed_trigger_specText 600 100 60000 ⟨5, 0, true, false⟩ = true ∧
    (lrng_sdrng_get_loop false 600 100 60000 id (fun _ => 1) 1 1
      ⟨5, 0, true, false⟩).seed_calls = 0 := by
  decide

/-- C6 (amended): a secondary (non-atomic) DRNG shard attempts a reseed
from the primary DRNG before a generation chunk exactly when its signed
request budget reaches zero upon decrement, or its force-reseed flag is
set, or the elapsed time since it was last seeded STRICTLY exceeds the
maximum reseed interval (`time_after` is strict) — and in no other
case. -/
theorem claim_C6_reseed_trigger (reseed_max_time hz jiffies : Nat)
    (st : SdrngState)
    (hlast : st.last_seeded + reseed_max_time * hz < 2^63)
    (hjiff : jiffies < 2^63) :
    ((lrng_sdrng_reseed_trigger reseed_max_time hz jiffies st).1 = true ↔
      (int32wrap (st.requests - 1) = 0 ∨ st.force_reseed = true ∨
       st.last_seeded + reseed_max_time * hz < jiffies)) ∧
    (∀ (seedEffect : SdrngState → SdrngState) (genBytes : Nat → Int) (n : Nat),
      (lrng_sdrng_get_loop false reseed_max_time hz jiffies seedEffect genBytes
        1 (n + 1) st).seed_calls =
        (if (lrng_sdrng_reseed_trigger reseed_max_time hz jiffies st).1
         then 1 else 0)) := by
  constructor
  · have hta : (time_after jiffies
        (u64 (st.last_seeded + reseed_max_time * hz)) = true) ↔
        st.last_seeded + reseed_max_time * hz < jiffies := by
      unfold time_after u64
      simp only [decide_eq_true_eq]
      omega
    unfold lrng_sdrng_reseed_trigger
    simp only [Bool.or_eq_true, beq_iff_eq, hta]
    tauto
  · intro seedEffect genBytes n
    rcases htr : (lrng_sdrng_reseed_trigger reseed_max_time hz jiffies st).1
      with _ | _ <;>
      by_cases hg : genBytes 0 ≤ 0 <;>
        simp [lrng_sdrng_get_loop, htr, hg]

/-- C6, witness: a shard whose budget reaches zero on decrement attempts
the reseed. -/
theorem claim_C6_reseed_trigger_witness :
    (lrng_sdrng_reseed_trigger 600 100 0 ⟨1, 0, true, false⟩).1 = true ↔
      (int32wrap ((1 : Int) - 1) = 0 ∨ False ∨ 0 + 600 * 100 < 0) := by
  have h := (claim_C6_reseed_trigger 600 100 0 ⟨1, 0, true, false⟩
    (by norm_num) (by norm_num)).1
  simpa using h

/-! ## Claim C7 — backend switch policy rejection -/

/-- C7: `lrng_set_drng_cb` returns the configuration error `-EINVAL` and
leaves all DRNG state unchanged whenever the currently active backend is
not the default ChaCha20 one and the requested backend is also not the
default; `lrng_drngs_switch` is never reached. -/
theorem claim_C7_switch_rejected
    (drngs_switch : Nat → DrngsState → Int × DrngsState)
    (cb : Nat) (st : DrngsState)
    (hcb : cb ≠ 0) (hcur : st.pdrng_crypto_cb ≠ 0) :
    lrng_set_drng_cb drngs_switch (some cb) st = (-22, st) := by
  unfold lrng_set_drng_cb
  simp [hcb, hcur]

/-- C7, witness: with backend 1 active, requesting backend 2 is refused
with `-EINVAL` and the state is returned untouched, whatever the switch
routine would have done. -/
theorem claim_C7_switch_rejected_witness :
    lrng_set_drng_cb (fun _ s => (0, s)) (some 2)
      ⟨1, ⟨true, true, 256⟩, 256, [1]⟩ =
      (-22, ⟨1, ⟨true, true, 256⟩, 256, [1]⟩) :=
  claim_C7_switch_rejected (fun _ s => (0, s)) 2
    ⟨1, ⟨true, true, 256⟩, 256, [1]⟩ (by decide) (by decide)

/-! ## Claim C8 — forward-only seeding state, callbacks fire once -/

theorem lrng_pdrng_init_ops_mono (irq_entropy_bits : Nat) (st : PdrngState)
    (thresh e : Nat) :
    (st.pdrng_min_seeded = true →
      (lrng_pdrng_init_ops irq_entropy_bits st thresh e).st.pdrng_min_seeded = true) ∧
    (st.pdrng_fully_seeded = true →
      (lrng_pdrng_init_ops irq_entropy_bits st thresh e).st.pdrng_fully_seeded = true) := by
  unfold lrng_pdrng_init_ops
  split_ifs <;> simp_all

theorem lrng_pdrng_init_ops_fired_min (irq_entropy_bits : Nat)
    (st : PdrngState) (thresh e : Nat)
    (h : (lrng_pdrng_init_ops irq_entropy_bits st thresh e).fired_min = true) :
    st.pdrng_min_seeded = false ∧
    (lrng_pdrng_init_ops irq_entropy_bits st thresh e).st.pdrng_min_seeded = true := by
  revert h
  unfold lrng_pdrng_init_ops
  split_ifs <;> simp_all

theorem lrng_pdrng_init_ops_fired_full (irq_entropy_bits : Nat)
    (st : PdrngState) (thresh e : Nat)
    (h : (lrng_pdrng_init_ops irq_entropy_bits st thresh e).fired_full = true) :
    st.pdrng_fully_seeded = false ∧
    (lrng_pdrng_init_ops irq_entropy_bits st thresh e).st.pdrng_fully_seeded = true := by
  revert h
  unfold lrng_pdrng_init_ops
  split_ifs <;> simp_all

theorem lrng_pdrng_inject_entropy_eq_true (irq_entropy_bits : Nat)
    (st : PdrngState) (thresh len bits : Nat) :
    lrng_pdrng_inject_entropy irq_entropy_bits st thresh len bits true =
      lrng_pdrng_init_ops irq_entropy_bits
        (PdrngState.mk st.pdrng_fully_seeded st.pdrng_min_seeded
          (min (st.pdrng_entropy_bits + min bits (u32 (len <<< 3)))
            LRNG_DRNG_SECURITY_STRENGTH_BITS))
        thresh
        (min (st.pdrng_entropy_bits + min bits (u32 (len <<< 3)))
          LRNG_DRNG_SECURITY_STRENGTH_BITS) := rfl

theorem lrng_pdrng_inject_entropy_eq_false (irq_entropy_bits : Nat)
    (st : PdrngState) (thresh len bits : Nat) :
    lrng_pdrng_inject_entropy irq_entropy_bits st thresh len bits false =
      { st := st, num_events_thresh := thresh, fired_full := false,
        fired_min := false } := rfl

theorem lrng_pdrng_inject_entropy_mono (irq_entropy_bits : Nat)
    (st : PdrngState) (thresh len bits : Nat) (ok : Bool) :
    (st.pdrng_min_seeded = true →
      (lrng_pdrng_inject_entropy irq_entropy_bits st thresh len bits ok).st.pdrng_min_seeded = true) ∧
    (st.pdrng_fully_seeded = true →
      (lrng_pdrng_inject_entropy irq_entropy_bits st thresh len bits ok).st.pdrng_fully_seeded = true) := by
  rcases ok with _ | _
  · rw [lrng_pdrng_inject_entropy_eq_false]
    exact ⟨fun h => h, fun h => h⟩
  · rw [lrng_pdrng_inject_entropy_eq_true]
    refine ⟨fun h => (lrng_pdrng_init_ops_mono _ _ _ _).1 ?_,
            fun h => (lrng_pdrng_init_ops_mono _ _ _ _).2 ?_⟩ <;> simpa using h

theorem lrng_pdrng_inject_entropy_fired_min (irq_entropy_bits : Nat)
    (st : PdrngState) (thresh len bits : Nat) (ok : Bool)
    (h : (lrng_pdrng_inject_entropy irq_entropy_bits st thresh len bits ok).fired_min = true) :
    st.pdrng_min_seeded = false ∧
    (lrng_pdrng_inject_entropy irq_entropy_bits st thresh len bits ok).st.pdrng_min_seeded = true := by
  rcases ok with _ | _
  · rw [lrng_pdrng_inject_entropy_eq_false] at h
    simp at h
  · rw [lrng_pdrng_inject_entropy_eq_true] at h ⊢
    exact lrng_pdrng_init_ops_fired_min _ _ _ _ h

theorem lrng_pdrng_inject_entropy_fired_full (irq_entropy_bits : Nat)
    (st : PdrngState) (thresh len bits : Nat) (ok : Bool)
    (h : (lrng_pdrng_inject_entropy irq_entropy_bits st thresh len bits ok).fired_full = true) :
    st.pdrng_fully_seeded = false ∧
    (lrng_pdrng_inject_entropy irq_entropy_bits st thresh len bits ok).st.pdrng_fully_seeded = true := by
  rcases ok with _ | _
  · rw [lrng_pdrng_inject_entropy_eq_false] at h
    simp at h
  · rw [lrng_pdrng_inject_entropy_eq_true] at h ⊢
    exact lrng_pdrng_init_ops_fired_full _ _ _ _ h

theorem lrng_inject_trace_min_zero (irq_entropy_bits : Nat) :
    ∀ (ops : List (Nat × Nat × Bool)) (st : PdrngState) (thresh : Nat),
      st.pdrng_min_seeded = true →
      (lrng_inject_trace irq_entropy_bits ops st thresh).min_fires = 0 := by
  intro ops
  induction ops with
  | nil => intro st thresh _; rfl
  | cons op rest ih =>
    intro st thresh hmin
    obtain ⟨len, bits, ok⟩ := op
    have hmono := (lrng_pdrng_inject_entropy_mono irq_entropy_bits st thresh
      len bits ok).1 hmin
    rcases hfm : (lrng_pdrng_inject_entropy irq_entropy_bits st thresh len
        bits ok).fired_min with _ | _
    · simp only [lrng_inject_trace, hfm, Bool.false_eq_true, if_false, zero_add]
      exact ih _ _ hmono
    · have := (lrng_pdrng_inject_entropy_fired_min irq_entropy_bits st thresh
        len bits ok hfm).1
      rw [hmin] at this
      exact absurd this (by simp)

theorem lrng_inject_trace_full_zero (irq_entropy_bits : Nat) :
    ∀ (ops : List (Nat × Nat × Bool)) (st : PdrngState) (thresh : Nat),
      st.pdrng_fully_seeded = true →
      (lrng_inject_trace irq_entropy_bits ops st thresh).full_fires = 0 := by
  intro ops
  induction ops with
  | nil => intro st thresh _; rfl
  | cons op rest ih =>
    intro st thresh hful
    obtain ⟨len, bits, ok⟩ := op
    have hmono := (lrng_pdrng_inject_entropy_mono irq_entropy_bits st thresh
      len bits ok).2 hful
    rcases hff : (lrng_pdrng_inject_entropy irq_entropy_bits st thresh len
        bits ok).fired_full with _ | _
    · simp only [lrng_inject_trace, hff, Bool.false_eq_true, if_false, zero_add]
      exact ih _ _ hmono
    · have := (lrng_pdrng_inject_entropy_fired_full irq_entropy_bits st thresh
        len bits ok hff).1
      rw [hful] at this
      exact absurd this (by simp)

theorem lrng_inject_trace_min_le_one (irq_entropy_bits : Nat) :
    ∀ (ops : List (Nat × Nat × Bool)) (st : PdrngState) (thresh : Nat),
      (lrng_inject_trace irq_entropy_bits ops st thresh).min_fires ≤ 1 := by
  intro ops
  induction ops with
  | nil => intro st thresh; simp [lrng_inject_trace]
  | cons op rest ih =>
    intro st thresh
    obtain ⟨len, bits, ok⟩ := op
    rcases hfm : (lrng_pdrng_inject_entropy irq_entropy_bits st thresh len
        bits ok).fired_min with _ | _
    · simp only [lrng_inject_trace, hfm, Bool.false_eq_true, if_false, zero_add]
      exact ih _ _
    · have h2 := (lrng_pdrng_inject_entropy_fired_min irq_entropy_bits st
        thresh len bits ok hfm).2
      simp only [lrng_inject_trace, hfm, if_true]
      rw [lrng_inject_trace_min_zero irq_entropy_bits rest _ _ h2]

theorem lrng_inject_trace_full_le_one (irq_entropy_bits : Nat) :
    ∀ (ops : List (Nat × Nat × Bool)) (st : PdrngState) (thresh : Nat),
      (lrng_inject_trace irq_entropy_bits ops st thresh).full_fires ≤ 1 := by
  intro ops
  induction ops with
  | nil => intro st thresh; simp [lrng_inject_trace]
  | cons op rest ih =>
    intro st thresh
    obtain ⟨len, bits, ok⟩ := op
    rcases hff : (lrng_pdrng_inject_entropy irq_entropy_bits st thresh len
        bits ok).fired_full with _ | _
    · simp only [lrng_inject_trace, hff, Bool.false_eq_true, if_false, zero_add]
      exact ih _ _
    · have h2 := (lrng_pdrng_inject_entropy_fired_full irq_entropy_bits st
        thresh len bits ok hff).2
      simp only [lrng_inject_trace, hff, if_true]
      rw [lrng_inject_trace_full_zero irq_entropy_bits rest _ _ h2]

/-- C8, counterexample: the seeding state does NOT only move forward
across every operation of the program: `lrng_drngs_switch` (reached from
the exported `lrng_set_drng_cb`) calls `lrng_pdrng_reset` when pulling a
seed from the old primary DRNG fails, downgrading a fully-seeded
primary DRNG to `Unseeded` — exactly the downgrade the spec's §7(b)
error taxonomy itself describes. -/
theorem claim_C8_counterexample :
    pdrng_rank ⟨true, true, 256⟩ = 3 ∧
    pdrng_rank (lrng_drngs_switch_pdrng false true true ⟨true, true, 256⟩) = 0 := by
  decide

/-- C8 (amended): under every entropy-injection operation
(`lrng_pdrng_inject` / `lrng_pdrng_init_ops`) the primary DRNG's seeding
state only moves forward in the order Unseeded < Initial <
MinimallySeeded < FullySeeded, and along any sequence of injections each
threshold's ready-callback processing fires at most once; the exception
forced by the counterexample is `lrng_pdrng_reset`, invoked at boot
initialization and by the backend-switch failure path, which downgrades
the state to Unseeded. -/
theorem claim_C8_forward_only :
    (∀ (irq_entropy_bits : Nat) (st : PdrngState) (thresh e : Nat),
      pdrng_rank st ≤
        pdrng_rank (lrng_pdrng_init_ops irq_entropy_bits st thresh e).st) ∧
    (∀ (irq_entropy_bits : Nat) (ops : List (Nat × Nat × Bool))
       (st : PdrngState) (thresh : Nat),
      (lrng_inject_trace irq_entropy_bits ops st thresh).min_fires ≤ 1 ∧
      (lrng_inject_trace irq_entropy_bits ops st thresh).full_fires ≤ 1) := by
  constructor
  · intro irq_entropy_bits st thresh e
    have h := lrng_pdrng_init_ops_mono irq_entropy_bits st thresh e
    unfold pdrng_rank
    rcases hful : st.pdrng_fully_seeded with _ | _ <;>
      rcases hmin : st.pdrng_min_seeded with _ | _ <;>
        split_ifs <;> first | omega | simp_all
  · intro irq_entropy_bits ops st thresh
    exact ⟨lrng_inject_trace_min_le_one irq_entropy_bits ops st thresh,
           lrng_inject_trace_full_le_one irq_entropy_bits ops st thresh⟩

/-! ## Claim C10 — atomic DRNG never reseeds from the primary in the loop -/

/-- C10: for every generation request served by the atomic DRNG instance
the `lrng_sdrng_get` loop never invokes the primary-DRNG reseed path
(`lrng_sdrng_seed`), whatever the request budget, force-reseed flag or
elapsed time; and the atomic DRNG is instead reseeded by the tail of a
secondary DRNG's own `lrng_sdrng_seed`, which injects into it exactly
when the primary pull succeeded, the secondary does not share the atomic
handle, the atomic instance's own triggers (force flag, exhausted
budget, elapsed interval) hold, and the feeding `lrng_sdrng_get` call
succeeded. -/
theorem claim_C10_atomic_no_primary_reseed :
    (∀ (reseed_max_time hz jiffies : Nat)
       (seedEffect : SdrngState → SdrngState) (genBytes : Nat → Int)
       (fuel outbuflen : Nat) (st : SdrngState),
      (lrng_sdrng_get_loop true reseed_max_time hz jiffies seedEffect genBytes
        fuel outbuflen st).seed_calls = 0) ∧
    (∀ (seedFuncRet : Int) (sdrngSeedOk : Bool) (sdrngGetRet : Int)
       (atomicSeedOk : Bool) (reseed_max_time hz jiffies : Nat)
       (st a : SdrngState),
      (lrng_sdrng_seed seedFuncRet sdrngSeedOk sdrngGetRet atomicSeedOk false
        reseed_max_time hz jiffies st a).atomic_injected =
        (!decide (seedFuncRet < 0) &&
         (a.force_reseed || decide (a.requests ≤ 0) ||
          time_after jiffies (u64 (a.last_seeded + reseed_max_time * hz))) &&
         !decide (sdrngGetRet < 0))) := by
  constructor
  · intro reseed_max_time hz jiffies seedEffect genBytes fuel
    induction fuel with
    | zero => intro outbuflen st; simp [lrng_sdrng_get_loop]
    | succ n ih =>
      intro outbuflen st
      unfold lrng_sdrng_get_loop
      rcases houtb : outbuflen with _ | m
      · simp
      · simp only [if_neg (Nat.succ_ne_zero m)]
        rcases htr : (lrng_sdrng_reseed_trigger reseed_max_time hz jiffies st).1
          with _ | _ <;>
          by_cases hg : genBytes n ≤ 0 <;>
            simp [htr, hg, ih]
  · intro seedFuncRet sdrngSeedOk sdrngGetRet atomicSeedOk reseed_max_time hz
      jiffies st a
    unfold lrng_sdrng_seed
    split_ifs <;> simp_all

/-! ## Claims C1 and C3 — `lrng_get_pool` entropy accounting -/

theorem lrng_get_pool_entropy_bits_eq (irq_entropy_bits digestsize : Nat)
    (hashOk : Nat → Bool) (n0 mid req : Nat) (drain : Bool) :
    (lrng_get_pool irq_entropy_bits digestsize hashOk n0 mid req drain).entropy_bits =
      (if drain then
        lrng_hash_pool digestsize hashOk
          (min (min (lrng_data_to_entropy irq_entropy_bits n0)
             LRNG_POOL_SIZE_BITS) req -
           min (min (lrng_data_to_entropy irq_entropy_bits n0)
             LRNG_POOL_SIZE_BITS) req % 8)
      else if min (lrng_data_to_entropy irq_entropy_bits n0)
          LRNG_POOL_SIZE_BITS < u32 (req + LRNG_EMERG_ENTROPY) then 0
      else lrng_hash_pool digestsize hashOk (req - req % 8)) := rfl

theorem lrng_get_pool_entropy_bits_le (irq_entropy_bits digestsize : Nat)
    (hashOk : Nat → Bool) (n0 mid req : Nat) (drain : Bool)
    (hreq : req + LRNG_EMERG_ENTROPY < 2^32) :
    (lrng_get_pool irq_entropy_bits digestsize hashOk n0 mid req
        drain).entropy_bits ≤
      min (lrng_data_to_entropy irq_entropy_bits n0) LRNG_POOL_SIZE_BITS := by
  rw [lrng_get_pool_entropy_bits_eq]
  rcases drain with _ | _
  · simp only [Bool.false_eq_true, if_false]
    split_ifs with hc
    · exact Nat.zero_le _
    · rw [u32_eq_of_lt hreq] at hc
      have h1 := lrng_hash_pool_le digestsize hashOk (req - req % 8)
      have h2 : LRNG_EMERG_ENTROPY = 512 := rfl
      omega
  · simp only [if_true]
    have h1 := lrng_hash_pool_le digestsize hashOk
      (min (min (lrng_data_to_entropy irq_entropy_bits n0)
         LRNG_POOL_SIZE_BITS) req -
       min (min (lrng_data_to_entropy irq_entropy_bits n0)
         LRNG_POOL_SIZE_BITS) req % 8)
    omega

/-- C1: `lrng_get_pool` never returns more entropy bits than were
available before the call (the event count converted to bits, capped at
the pool capacity), the event-count subtraction at its end never takes
the counter below zero (the events charged never exceed the events
present), and the counter value it leaves behind never exceeds the
event-count equivalent of the pool capacity
(`lrng_entropy_to_data(LRNG_POOL_SIZE_BITS)`).  `irq_entropy_bits` is
256 or 2560 in the program, hence the generous `< 2^20` bound; the
counter hypotheses say the 32-bit event counter does not wrap. -/
theorem claim_C1_extract_accounting (irq_entropy_bits digestsize : Nat)
    (hashOk : Nat → Bool) (n0 mid req : Nat) (drain : Bool)
    (hieb0 : 0 < irq_entropy_bits) (hieb1 : irq_entropy_bits < 2^20)
    (hn : n0 + mid < 2^32)
    (hreq : req + LRNG_EMERG_ENTROPY < 2^32) :
    (lrng_get_pool irq_entropy_bits digestsize hashOk n0 mid req
        drain).entropy_bits ≤ lrng_avail_entropy irq_entropy_bits n0 ∧
    (lrng_get_pool irq_entropy_bits digestsize hashOk n0 mid req
        drain).events_used ≤
      (lrng_get_pool irq_entropy_bits digestsize hashOk n0 mid req
        drain).events_total ∧
    (lrng_get_pool irq_entropy_bits digestsize hashOk n0 mid req
        drain).num_events ≤
      lrng_entropy_to_data irq_entropy_bits LRNG_POOL_SIZE_BITS := by
  have h256 : LRNG_DRNG_SECURITY_STRENGTH_BITS = 256 := rfl
  have hPool : LRNG_POOL_SIZE_BITS = 4096 := rfl
  have hle := lrng_get_pool_entropy_bits_le irq_entropy_bits digestsize hashOk
    n0 mid req drain hreq
  have hle256 : (lrng_get_pool irq_entropy_bits digestsize hashOk n0 mid req
      drain).entropy_bits ≤ 256 := by
    rw [lrng_get_pool_entropy_bits_eq]
    have h1 := lrng_hash_pool_le_strength digestsize hashOk
      (min (min (lrng_data_to_entropy irq_entropy_bits n0)
         LRNG_POOL_SIZE_BITS) req -
       min (min (lrng_data_to_entropy irq_entropy_bits n0)
         LRNG_POOL_SIZE_BITS) req % 8)
    have h2 := lrng_hash_pool_le_strength digestsize hashOk (req - req % 8)
    rw [h256] at h1 h2
    split_ifs <;> omega
  have hmul : (lrng_get_pool irq_entropy_bits digestsize hashOk n0 mid req
      drain).entropy_bits * irq_entropy_bits < 2^32 := by
    calc (lrng_get_pool irq_entropy_bits digestsize hashOk n0 mid req
          drain).entropy_bits * irq_entropy_bits
        ≤ 256 * irq_entropy_bits := Nat.mul_le_mul_right _ hle256
      _ < 2^32 := by omega
  have hu1 : (lrng_get_pool irq_entropy_bits digestsize hashOk n0 mid req
      drain).events_used =
      lrng_entropy_to_data irq_entropy_bits
        (lrng_get_pool irq_entropy_bits digestsize hashOk n0 mid req
          drain).entropy_bits := rfl
  have hused_eq : (lrng_get_pool irq_entropy_bits digestsize hashOk n0 mid req
      drain).events_used =
      (lrng_get_pool irq_entropy_bits digestsize hashOk n0 mid req
        drain).entropy_bits * irq_entropy_bits / 256 := by
    rw [hu1]
    unfold lrng_entropy_to_data
    rw [u32_eq_of_lt hmul, h256]
  have husedn0 : (lrng_get_pool irq_entropy_bits digestsize hashOk n0 mid req
      drain).events_used ≤ n0 := by
    rw [hused_eq]
    have hretA : (lrng_get_pool irq_entropy_bits digestsize hashOk n0 mid req
        drain).entropy_bits ≤ u32 (n0 * 256) / irq_entropy_bits := by
      have h1 : min (lrng_data_to_entropy irq_entropy_bits n0)
          LRNG_POOL_SIZE_BITS ≤ lrng_data_to_entropy irq_entropy_bits n0 :=
        Nat.min_le_left _ _
      have h2 : lrng_data_to_entropy irq_entropy_bits n0 =
          u32 (n0 * 256) / irq_entropy_bits := by
        unfold lrng_data_to_entropy
        rw [h256]
      omega
    have h1 : (lrng_get_pool irq_entropy_bits digestsize hashOk n0 mid req
        drain).entropy_bits * irq_entropy_bits ≤
        u32 (n0 * 256) / irq_entropy_bits * irq_entropy_bits :=
      Nat.mul_le_mul_right _ hretA
    have h2 : u32 (n0 * 256) / irq_entropy_bits * irq_entropy_bits ≤
        u32 (n0 * 256) := Nat.div_mul_le_self _ _
    have h3 : u32 (n0 * 256) ≤ n0 * 256 := Nat.mod_le _ _
    have h4 : (lrng_get_pool irq_entropy_bits digestsize hashOk n0 mid req
        drain).entropy_bits * irq_entropy_bits / 256 ≤ n0 * 256 / 256 :=
      Nat.div_le_div_right (le_trans h1 (le_trans h2 h3))
    rwa [Nat.mul_div_cancel _ (by norm_num : 0 < 256)] at h4
  have htot : (lrng_get_pool irq_entropy_bits digestsize hashOk n0 mid req
      drain).events_total = n0 + mid := u32_eq_of_lt hn
  have hcap_lt : 4096 * irq_entropy_bits < 2^32 := by omega
  have hcap_eq : lrng_entropy_to_data irq_entropy_bits LRNG_POOL_SIZE_BITS =
      4096 * irq_entropy_bits / 256 := by
    unfold lrng_entropy_to_data
    rw [h256, hPool, u32_eq_of_lt hcap_lt]
  have husedcap : (lrng_get_pool irq_entropy_bits digestsize hashOk n0 mid req
      drain).events_used ≤ 4096 * irq_entropy_bits / 256 := by
    rw [hused_eq]
    exact Nat.div_le_div_right (Nat.mul_le_mul_right _ (by omega))
  refine ⟨?_, ?_, ?_⟩
  · unfold lrng_avail_entropy
    omega
  · rw [htot]
    omega
  · have hnum : (lrng_get_pool irq_entropy_bits digestsize hashOk n0 mid req
        drain).num_events =
        min (u32sub (lrng_get_pool irq_entropy_bits digestsize hashOk n0 mid
            req drain).events_total
          (lrng_get_pool irq_entropy_bits digestsize hashOk n0 mid req
            drain).events_used)
          (u32sub (lrng_entropy_to_data irq_entropy_bits LRNG_POOL_SIZE_BITS)
            (lrng_get_pool irq_entropy_bits digestsize hashOk n0 mid req
              drain).events_used) := rfl
    have hsub : u32sub (lrng_entropy_to_data irq_entropy_bits
        LRNG_POOL_SIZE_BITS)
        (lrng_get_pool irq_entropy_bits digestsize hashOk n0 mid req
          drain).events_used =
        lrng_entropy_to_data irq_entropy_bits LRNG_POOL_SIZE_BITS -
        (lrng_get_pool irq_entropy_bits digestsize hashOk n0 mid req
          drain).events_used := by
      apply u32sub_eq_sub
      · rw [hcap_eq]; exact husedcap
      · rw [hcap_eq]
        exact lt_of_le_of_lt (Nat.div_le_self _ _) hcap_lt
    rw [hnum, hsub]
    have := Nat.min_le_right
      (u32sub (lrng_get_pool irq_entropy_bits digestsize hashOk n0 mid req
          drain).events_total
        (lrng_get_pool irq_entropy_bits digestsize hashOk n0 mid req
          drain).events_used)
      (lrng_entropy_to_data irq_entropy_bits LRNG_POOL_SIZE_BITS -
        (lrng_get_pool irq_entropy_bits digestsize hashOk n0 mid req
          drain).events_used)
    omega

/-- C1, witness: high-resolution timer rate (256 bits / 256 events), a
32-byte digest that always succeeds, 100 events in the pool, a drain
read of 256 bits: 96 bits come back, 96 events are charged out of 100,
and 4 events remain (bounds 100 available bits, 100 events, 4096-event
cap respected). -/
theorem claim_C1_extract_accounting_witness :
    (lrng_get_pool 256 32 (fun _ => true) 100 0 256 true).entropy_bits ≤
      lrng_avail_entropy 256 100 ∧
    (lrng_get_pool 256 32 (fun _ => true) 100 0 256 true).events_used ≤
      (lrng_get_pool 256 32 (fun _ => true) 100 0 256 true).events_total ∧
    (lrng_get_pool 256 32 (fun _ => true) 100 0 256 true).num_events ≤
      lrng_entropy_to_data 256 LRNG_POOL_SIZE_BITS :=
  claim_C1_extract_accounting 256 32 (fun _ => true) 100 0 256 true
    (by norm_num) (by norm_num) (by norm_num) (by decide)

/-- C3: when `lrng_get_pool` is called without `drain` it returns zero
unless the available entropy is at least the requested entropy plus the
emergency reserve (`LRNG_EMERG_ENTROPY`); with `drain` the output is
bounded by the smaller of available and requested entropy; in both
cases the result is a whole-byte bit count (multiple of 8). -/
theorem claim_C3_extract_policy (irq_entropy_bits digestsize : Nat)
    (hashOk : Nat → Bool) (n0 mid req : Nat) (drain : Bool)
    (hreq : req + LRNG_EMERG_ENTROPY < 2^32) :
    (drain = false →
      lrng_avail_entropy irq_entropy_bits n0 < req + LRNG_EMERG_ENTROPY →
      (lrng_get_pool irq_entropy_bits digestsize hashOk n0 mid req
        drain).entropy_bits = 0) ∧
    (drain = true →
      (lrng_get_pool irq_entropy_bits digestsize hashOk n0 mid req
        drain).entropy_bits ≤
        min (lrng_avail_entropy irq_entropy_bits n0) req) ∧
    (lrng_get_pool irq_entropy_bits digestsize hashOk n0 mid req
      drain).entropy_bits % 8 = 0 := by
  have havail : lrng_avail_entropy irq_entropy_bits n0 =
      min (lrng_data_to_entropy irq_entropy_bits n0) LRNG_POOL_SIZE_BITS := by
    unfold lrng_avail_entropy
    exact Nat.min_comm _ _
  refine ⟨?_, ?_, ?_⟩
  · intro hd hlt
    subst hd
    rw [lrng_get_pool_entropy_bits_eq]
    simp only [Bool.false_eq_true, if_false]
    rw [if_pos]
    rw [u32_eq_of_lt hreq, ← havail]
    exact hlt
  · intro hd
    subst hd
    rw [lrng_get_pool_entropy_bits_eq]
    simp only [if_true]
    have h1 := lrng_hash_pool_le digestsize hashOk
      (min (min (lrng_data_to_entropy irq_entropy_bits n0)
         LRNG_POOL_SIZE_BITS) req -
       min (min (lrng_data_to_entropy irq_entropy_bits n0)
         LRNG_POOL_SIZE_BITS) req % 8)
    rw [havail]
    omega
  · rw [lrng_get_pool_entropy_bits_eq]
    have h1 := lrng_hash_pool_mod8 digestsize hashOk
      (min (min (lrng_data_to_entropy irq_entropy_bits n0)
         LRNG_POOL_SIZE_BITS) req -
       min (min (lrng_data_to_entropy irq_entropy_bits n0)
         LRNG_POOL_SIZE_BITS) req % 8)
    have h2 := lrng_hash_pool_mod8 digestsize hashOk (req - req % 8)
    split_ifs <;> omega

/-- C3, witness: with 100 events (100 bits) available, a 256-bit
non-drain request is refused outright (100 < 256 + 512), a drain request
is served within the 100 available bits, and results are whole bytes. -/
theorem claim_C3_extract_policy_witness :
    ((false : Bool) = false →
      lrng_avail_entropy 256 100 < 256 + LRNG_EMERG_ENTROPY →
      (lrng_get_pool 256 32 (fun _ => true) 100 0 256 false).entropy_bits = 0) ∧
    ((false : Bool) = true →
      (lrng_get_pool 256 32 (fun _ => true) 100 0 256
        false).entropy_bits ≤ min (lrng_avail_entropy 256 100) 256) ∧
    (lrng_get_pool 256 32 (fun _ => true) 100 0 256
      false).entropy_bits % 8 = 0 :=
  claim_C3_extract_policy 256 32 (fun _ => true) 100 0 256 false (by decide)

end LRNG
